import Mathlib

/-!
Shallow embedding of the `juv` synchronization bridge
(`src/juv/_add.py` and `src/juv/_init.py`).

Text is modelled as `String`, with the handful of Python string
operations the code uses (`in` substring test, `.strip()`,
`.split("\n")`) implemented structurally over the character list so
that every definition evaluates inside the kernel.

External collaborators (the `uv` binary, the filesystem, the
`_nbutils` and `_pep723` helper modules that are not part of the
sources) are modelled as explicit function parameters or, where the
spec pins down their behaviour, as definitions marked
"Modelled from the spec".
-/

deriving instance DecidableEq for Except

namespace Juv

/-! ## Character-list text primitives -/

/-- Boolean test that the first list is an initial segment of the second. -/
def leadsWith : List Char → List Char → Bool
  | [], _ => true
  | _ :: _, [] => false
  | p :: ps, x :: xs => p == x && leadsWith ps xs

/-- Boolean occurrence test: `occursIn pat l` holds when `pat` appears as a
contiguous run inside `l`.  The empty pattern occurs in every list, matching
the semantics of the Python `in` operator on strings. -/
def occursIn (pat : List Char) : List Char → Bool
  | [] => pat.isEmpty
  | x :: xs => leadsWith pat (x :: xs) || occursIn pat xs

/-- Split a character list at every occurrence of the separator character,
keeping empty segments, so that the result matches Python
`text.split(sep)` for a one-character separator. -/
def splitOnChar (c : Char) : List Char → List (List Char)
  | [] => [[]]
  | x :: xs =>
    let rest := splitOnChar c xs
    if x = c then [] :: rest
    else
      match rest with
      | [] => [[x]]
      | r :: rs => (x :: r) :: rs

/-- Drop whitespace from both ends, the behaviour of Python `str.strip()`. -/
def trimChars (l : List Char) : List Char :=
  ((l.dropWhile Char.isWhitespace).reverse.dropWhile Char.isWhitespace).reverse

/-- Python `pat in s` substring test. -/
def strContains (s pat : String) : Bool :=
  occursIn pat.data s.data

/-- Python `s.strip()`. -/
def strTrim (s : String) : String :=
  String.mk (trimChars s.data)

/-- Python `s.split("\n")`. -/
def strLines (s : String) : List String :=
  (splitOnChar '\n' s.data).map String.mk

/-! ## Data model

The notebook Document model of spec section 3: a Cell carries a
cell type tag, source text, opaque metadata and a hidden flag; a
Document is an ordered list of cells plus its own metadata.  Metadata
is opaque to the core, so any type with decidable equality serves; we
use association lists of strings. -/

structure Cell where
  cell_type : String
  source : String
  metadata : List (String × String)
  hidden : Bool
  deriving DecidableEq, Repr

structure Notebook where
  cells : List Cell
  metadata : List (String × String)
  deriving DecidableEq, Repr

/-- Modelled from the spec: the notebook I/O collaborator constructor
`new_code_cell(source, hidden) -> Cell` (`code_cell` lives in the
`_nbutils` module, which is outside the given sources). -/
def code_cell (source : String) (hidden : Bool) : Cell :=
  { cell_type := "code", source := source, metadata := [], hidden := hidden }

/-- Modelled from the spec: the inline-metadata predicate
`includes_inline_metadata(text) -> bool` (the `_pep723` module is outside
the given sources).  Per the spec, the manifest cell is "the one whose
source text contains an inline-metadata marker block"; the marker block of
a PEP-723 style script opens with the line `# /// script`, so the
predicate is modelled as containment of that marker.  The only fact the
development relies on is that the empty source does not contain the
marker. -/
def includes_inline_metadata (s : String) : Bool :=
  strContains s "# /// script"

/-- File paths enter the embedded code only through their stem and their
suffix (the final dotted extension, as in Python `pathlib`), so a path is
modelled as that pair. -/
structure FsPath where
  stem : String
  suffix : String
  deriving DecidableEq, Repr

/-- Python `path.with_suffix(s)`: same stem, replaced suffix. -/
def withSuffix (p : FsPath) (s : String) : FsPath :=
  { stem := p.stem, suffix := s }

/-! ## Metadata cell locator (`find` and lines 119-129 of `_add.py`) -/

/-- The generic first-match helper `find` of `_add.py`. -/
def find {α : Type} (cb : α → Bool) (items : List α) : Option α :=
  items.find? cb

/-- The search predicate at lines 120-123 of `_add.py`: a code cell whose
concatenated source satisfies the inline-metadata predicate.  The source
is a single string, and joining the characters of a string with the empty
separator is the identity, so the predicate applies to the source
directly. -/
def isManifestCell (pred : String → Bool) (c : Cell) : Bool :=
  c.cell_type == "code" && pred c.source

/-- Index of the first manifest cell, mirroring the `find` call at lines
119-125; the index stands for the reference the Python code keeps to the
found cell. -/
def findManifestIdx (pred : String → Bool) : List Cell → Option Nat
  | [] => none
  | c :: cs =>
    if isManifestCell pred c then some 0
    else (findManifestIdx pred cs).map Nat.succ

/-- Lines 119-129 of `_add.py`: locate the manifest cell, or insert a new
hidden empty code cell at index 0 and take that one.  Returns the updated
Document together with the index of the located cell. -/
def locateOrCreate (pred : String → Bool) (nb : Notebook) : Notebook × Nat :=
  match findManifestIdx pred nb.cells with
  | some i => (nb, i)
  | none => ({ cells := code_cell "" true :: nb.cells, metadata := nb.metadata }, 0)

/-! ## Locator lemmas -/

theorem find_eq_findManifestIdx (pred : String → Bool) (cs : List Cell) :
    find (isManifestCell pred) cs = (findManifestIdx pred cs).bind (fun i => cs[i]?) := by
  induction cs with
  | nil => rfl
  | cons c cs ih =>
    cases h : isManifestCell pred c
    · have step : find (isManifestCell pred) (c :: cs) = find (isManifestCell pred) cs := by
        simp [find, List.find?, h]
      rw [step, ih]
      simp only [findManifestIdx, h, Bool.false_eq_true, if_neg, not_false_iff]
      cases findManifestIdx pred cs <;> simp
    · simp [find, List.find?, findManifestIdx, h]

theorem findManifestIdx_eq_none (pred : String → Bool) (cs : List Cell)
    (h : ∀ c ∈ cs, isManifestCell pred c = false) :
    findManifestIdx pred cs = none := by
  induction cs with
  | nil => rfl
  | cons c cs ih =>
    have hc := h c (List.mem_cons_self c cs)
    simp [findManifestIdx, hc, ih fun x hx => h x (List.mem_cons_of_mem c hx)]

theorem findManifestIdx_some (pred : String → Bool) (cs : List Cell) (i : Nat)
    (h : findManifestIdx pred cs = some i) :
    ∃ c, cs[i]? = some c ∧ isManifestCell pred c = true := by
  induction cs generalizing i with
  | nil => simp [findManifestIdx] at h
  | cons c cs ih =>
    by_cases hc : isManifestCell pred c
    · simp [findManifestIdx, hc] at h
      exact ⟨c, by simp [← h], hc⟩
    · simp [findManifestIdx, hc] at h
      obtain ⟨j, hj, rfl⟩ := h
      obtain ⟨d, hd, hdm⟩ := ih j hj
      exact ⟨d, by simpa using hd, hdm⟩

/-! ## Package manager adapter (`uv_pip_compile` and `uv_script`)

The external binary is reachable only through `subprocess.run`; an
invocation is a pair of an argument vector and the text piped to standard
input, and its observable outcome is an exit code plus captured standard
output and standard error.  The subprocess itself is a parameter
`runTool`. -/

structure ToolResult where
  returncode : Int
  stdout : String
  stderr : String
  deriving DecidableEq, Repr

structure CompileCall where
  argv : List String
  stdin : String
  deriving DecidableEq, Repr

/-- Modelled from the spec: `find_uv_bin()` resolves the path of the
external package-manager binary; the binary is an external collaborator,
so its resolved name is an opaque constant here. -/
def uv_bin : String := "uv"

/-- Lines 45-50 of `_add.py`: start from the requirements file content and
append each requested package as its own line unless its literal string
already occurs in the accumulated text (Python `in` substring test). -/
def requirementsText (txt : String) (packages : List String) : String :=
  packages.foldl (fun acc p => if strContains acc p then acc else acc ++ p ++ "\n") txt

/-- Truthiness of an optional flag value, matching Python `if value:` on an
optional string: absent and empty both count as falsy. -/
def truthyFlag (mk : String → List String) : Option String → List String
  | none => []
  | some s => if s.isEmpty then [] else mk s

/-- Lines 52-60 of `_add.py`: the argument vector of the compile
invocation. -/
def uv_pip_compile_argv (no_deps : Bool) (exclude_newer : Option String) : List String :=
  [uv_bin, "pip", "compile"]
    ++ (if no_deps then ["--no-deps"] else [])
    ++ truthyFlag (fun s => ["--exclude-newer=" ++ s]) exclude_newer
    ++ ["-"]

/-- Lines 37-71 of `_add.py` (`uv_pip_compile`): build the combined
requirements text, run the compile subprocess on it, raise the captured
standard error on a non-zero exit, and otherwise keep exactly the output
lines containing the pin delimiter.  The invocation that was issued is
returned alongside the outcome so that theorems can speak about the argv
and the piped text.  `readFile` models `Path(requirements).read_text()`. -/
def uv_pip_compile (runTool : CompileCall → ToolResult) (readFile : String → String)
    (packages : List String) (requirements : Option String)
    (no_deps : Bool) (exclude_newer : Option String) :
    CompileCall × Except String (List String) :=
  let requirements_txt :=
    requirementsText (match requirements with | none => "" | some r => readFile r) packages
  let call : CompileCall :=
    { argv := uv_pip_compile_argv no_deps exclude_newer, stdin := requirements_txt }
  let result := runTool call
  (call,
    if result.returncode ≠ 0 then Except.error result.stderr
    else Except.ok ((strLines result.stdout).filter (fun pkg => strContains pkg "==")))

/-- Lines 74-101 of `_add.py` (`uv_script`): the argument vector handed to
the add-dependencies-to-script mode of the external tool.  Optional string
parameters follow Python truthiness; `extras or []` maps an absent list to
the empty list. -/
def uv_script_args (script : String) (packages : List String)
    (requirements : Option String) (extras : Option (List String)) (editable : Bool)
    (branch rev tag exclude_newer : Option String) : List String :=
  ["add"]
    ++ truthyFlag (fun r => ["--requirements", r]) requirements
    ++ (extras.getD []).map (fun extra => "--extra=" ++ extra)
    ++ (if editable then ["--editable"] else [])
    ++ truthyFlag (fun t => ["--tag=" ++ t]) tag
    ++ truthyFlag (fun b => ["--branch=" ++ b]) branch
    ++ truthyFlag (fun r => ["--rev=" ++ r]) rev
    ++ truthyFlag (fun d => ["--exclude-newer=" ++ d]) exclude_newer
    ++ ["--script", script]
    ++ packages

/-! ## Script bridge and notebook flow (`add_notebook`, lines 104-154)

The bridge writes the trimmed source of the located cell into a temporary
file, lets the external tool mutate that file, reads the mutated content
back and trims it.  The net effect of the tool on the file content is a
function from text to text; a failing tool invocation (`check=True` in
`uv_script`) raises, so nothing is written — modelled by `Option`. -/

def add_notebook (pred : String → Bool) (tool : String → Option String)
    (path : FsPath) (nb : Notebook) : Option (FsPath × Notebook) :=
  let located := locateOrCreate pred nb
  match located.1.cells[located.2]? with
  | none => none
  | some cell =>
    match tool (strTrim cell.source) with
    | none => none
    | some mutated =>
      some (withSuffix path ".ipynb",
        { cells := located.1.cells.set located.2 { cell with source := strTrim mutated },
          metadata := located.1.metadata })

/-! ## Orchestrator (`add`, lines 157-186)

`add` optionally pins the packages through the compile step and then
dispatches on the path suffix to the notebook flow or directly to the
script flow; in either case the same keyword arguments are forwarded to
the add-to-script step.  The embedding records the compile invocation
that was issued (if any) and the arguments forwarded to the chosen
branch. -/

structure AddDispatch where
  isNotebook : Bool
  packages : List String
  requirements : Option String
  extras : Option (List String)
  editable : Bool
  branch : Option String
  rev : Option String
  tag : Option String
  exclude_newer : Option String
  deriving DecidableEq, Repr

structure AddOutcome where
  compileCall : Option CompileCall
  dispatch : AddDispatch
  deriving DecidableEq, Repr

def add (runTool : CompileCall → ToolResult) (readFile : String → String)
    (path : FsPath) (packages : List String) (requirements : Option String)
    (extras : Option (List String)) (tag branch rev : Option String)
    (pin : Bool) (editable : Bool) (exclude_newer : Option String) :
    Except String AddOutcome :=
  if pin then
    match uv_pip_compile runTool readFile packages requirements true exclude_newer with
    | (_, Except.error e) => Except.error e
    | (call, Except.ok pinned) =>
      Except.ok
        { compileCall := some call,
          dispatch :=
            { isNotebook := path.suffix == ".ipynb", packages := pinned,
              requirements := none, extras := extras, editable := editable,
              branch := branch, rev := rev, tag := tag,
              exclude_newer := exclude_newer } }
  else
    Except.ok
      { compileCall := none,
        dispatch :=
          { isNotebook := path.suffix == ".ipynb", packages := packages,
            requirements := requirements, extras := extras, editable := editable,
            branch := branch, rev := rev, tag := tag,
            exclude_newer := exclude_newer } }

/-! ## Untitled-name selection (`_init.py`, lines 50-59)

The filesystem is modelled by an existence predicate over file names in
the current directory. -/

/-- The candidate sequence: index 0 is `Untitled.ipynb`, later indices are
`Untitled1.ipynb`, `Untitled2.ipynb`, and so on. -/
def untitled (i : Nat) : String :=
  if i = 0 then "Untitled.ipynb" else "Untitled" ++ toString i ++ ".ipynb"

/-- The loop `for i in range(1, 100)` of lines 54-56: starting at index
`i` with `fuel` iterations left, return the first index whose candidate
name does not exist. -/
def findUntitled (ex : String → Bool) : Nat → Nat → Option Nat
  | _, 0 => none
  | i, fuel + 1 =>
    if !(ex ("Untitled" ++ toString i ++ ".ipynb")) then some i
    else findUntitled ex (i + 1) fuel

/-- Lines 50-59 of `_init.py`: try `Untitled.ipynb`, then
`Untitled1.ipynb` through `Untitled99.ipynb`, and fail when all are
taken. -/
def get_first_non_conflicting_untitled_ipynb (ex : String → Bool) : Except String String :=
  if !(ex "Untitled.ipynb") then Except.ok "Untitled.ipynb"
  else
    match findUntitled ex 1 99 with
    | some i => Except.ok ("Untitled" ++ toString i ++ ".ipynb")
    | none => Except.error "Could not find an available UntitledX.ipynb"

/-! ## Spec-side definitions used by refinement-style claims -/

/-- Spec-side rendering of the combined requirements text of
`compile_exact_versions`: walk the requested packages in order and append
each one as its own line exactly when its literal string does not occur
as a substring anywhere in the accumulated text. -/
def requirementsTextSpec (txt : String) : List String → String
  | [] => txt
  | p :: ps =>
    if strContains txt p then requirementsTextSpec txt ps
    else requirementsTextSpec (txt ++ p ++ "\n") ps

/-- Spec-side rendering of one optional command-line parameter: a present
value contributes its flag arguments, an absent one contributes nothing. -/
def optArgs (mk : String → List String) : Option String → List String
  | none => []
  | some s => mk s

/-! ## Claim C1 -/

/-- C1 (amended): for every Document with no code cell whose source
satisfies the inline-metadata predicate, one locate-or-create call
inserts exactly one new hidden code cell with empty source at index 0 —
the remaining cells and the Document metadata are untouched — and
returns the reference (index 0) to that inserted cell.  Each call
inserts at most this one cell. -/
theorem locateOrCreate_no_manifest (pred : String → Bool) (nb : Notebook)
    (h : ∀ c ∈ nb.cells, isManifestCell pred c = false) :
    locateOrCreate pred nb =
      ({ cells := code_cell "" true :: nb.cells, metadata := nb.metadata }, 0) := by
  unfold locateOrCreate
  rw [findManifestIdx_eq_none pred nb.cells h]

/-- Instantiation of `locateOrCreate_no_manifest` on a concrete Document
holding one ordinary code cell. -/
theorem locateOrCreate_no_manifest_witness :
    (∀ c ∈ ({ cells := [code_cell "print(1)" false], metadata := [] } : Notebook).cells,
        isManifestCell includes_inline_metadata c = false) ∧
    locateOrCreate includes_inline_metadata
        { cells := [code_cell "print(1)" false], metadata := [] } =
      ({ cells := code_cell "" true :: [code_cell "print(1)" false], metadata := [] }, 0) :=
  ⟨by decide, locateOrCreate_no_manifest includes_inline_metadata
    { cells := [code_cell "print(1)" false], metadata := [] } (by decide)⟩

/-- C1 is false as stated: on the empty Document, two successive
locate-or-create calls insert two hidden empty cells, because the empty
source of the freshly inserted cell does not satisfy the inline-metadata
predicate; so across repeated calls more than one cell is inserted. -/
theorem locateOrCreate_repeated_counterexample :
    includes_inline_metadata "" = false ∧
    (locateOrCreate includes_inline_metadata { cells := [], metadata := [] }).1.cells =
      [code_cell "" true] ∧
    (locateOrCreate includes_inline_metadata
        (locateOrCreate includes_inline_metadata { cells := [], metadata := [] }).1).1.cells =
      [code_cell "" true, code_cell "" true] := by decide

/-! ## Claim C4 -/

/-- C4: whenever the notebook flow writes a Document back, the
destination path is the input path with its suffix replaced by the
notebook extension — same stem, extension normalized — whatever suffix
the input path had. -/
theorem add_notebook_persists_ipynb (pred : String → Bool) (tool : String → Option String)
    (path : FsPath) (nb : Notebook) (wr : FsPath × Notebook)
    (h : add_notebook pred tool path nb = some wr) :
    wr.1 = withSuffix path ".ipynb" ∧ wr.1.stem = path.stem ∧ wr.1.suffix = ".ipynb" := by
  unfold add_notebook at h
  dsimp only at h
  cases hg : (locateOrCreate pred nb).1.cells[(locateOrCreate pred nb).2]? with
  | none => rw [hg] at h; exact absurd h (by simp)
  | some cell =>
    rw [hg] at h
    dsimp only at h
    cases ht : tool (strTrim cell.source) with
    | none => rw [ht] at h; exact absurd h (by simp)
    | some mutated =>
      rw [ht] at h
      dsimp only at h
      have hw : wr.1 = withSuffix path ".ipynb" := by
        cases h.symm
        rfl
      exact ⟨hw, by rw [hw]; rfl, by rw [hw]; rfl⟩

/-- Instantiation of `add_notebook_persists_ipynb`: the notebook flow on
the path with stem `nb` and suffix `.txt` persists to the path with stem
`nb` and suffix `.ipynb`. -/
theorem add_notebook_persists_ipynb_witness :
    add_notebook includes_inline_metadata (fun _ => some "x")
        { stem := "nb", suffix := ".txt" } { cells := [], metadata := [] } =
      some ({ stem := "nb", suffix := ".ipynb" },
        { cells := [{ cell_type := "code", source := "x", metadata := [], hidden := true }],
          metadata := [] }) ∧
    ({ stem := "nb", suffix := ".ipynb" } : FsPath) =
        withSuffix { stem := "nb", suffix := ".txt" } ".ipynb" ∧
    ({ stem := "nb", suffix := ".ipynb" } : FsPath).stem =
        ({ stem := "nb", suffix := ".txt" } : FsPath).stem ∧
    ({ stem := "nb", suffix := ".ipynb" } : FsPath).suffix = ".ipynb" :=
  ⟨by decide,
    add_notebook_persists_ipynb includes_inline_metadata (fun _ => some "x")
      { stem := "nb", suffix := ".txt" } { cells := [], metadata := [] }
      ({ stem := "nb", suffix := ".ipynb" },
        { cells := [{ cell_type := "code", source := "x", metadata := [], hidden := true }],
          metadata := [] }) (by decide)⟩

/-! ## Claim C5 -/

theorem requirementsText_eq_spec (txt : String) (packages : List String) :
    requirementsText txt packages = requirementsTextSpec txt packages := by
  induction packages generalizing txt with
  | nil => rfl
  | cons p ps ih =>
    by_cases h : strContains txt p
    · simp [requirementsText, requirementsTextSpec, List.foldl, h, ← ih]
    · simp [requirementsText, requirementsTextSpec, List.foldl, h, ← ih]

/-- C5: the text piped to the compile subprocess is the requirements file
content (empty when no requirements file is given), followed by each
requested package in order appended as its own line exactly when its
literal string does not yet occur as a substring of the accumulated
text. -/
theorem uv_pip_compile_stdin_spec (runTool : CompileCall → ToolResult)
    (readFile : String → String) (packages : List String) (requirements : Option String)
    (no_deps : Bool) (exclude_newer : Option String) :
    (uv_pip_compile runTool readFile packages requirements no_deps exclude_newer).1.stdin =
      requirementsTextSpec (match requirements with | none => "" | some r => readFile r)
        packages := by
  simp only [uv_pip_compile]
  exact requirementsText_eq_spec _ packages

/-! ## Claim C7 -/

/-- C7: the compile step fails exactly when the subprocess exits
non-zero, and the raised error is the captured standard-error text
verbatim; on exit code zero no error is raised. -/
theorem uv_pip_compile_error_iff (runTool : CompileCall → ToolResult)
    (readFile : String → String) (packages : List String) (requirements : Option String)
    (no_deps : Bool) (exclude_newer : Option String) (e : String) :
    (uv_pip_compile runTool readFile packages requirements no_deps exclude_newer).2 =
        Except.error e ↔
      ((runTool
          (uv_pip_compile runTool readFile packages requirements no_deps
            exclude_newer).1).returncode ≠ 0 ∧
        e = (runTool
          (uv_pip_compile runTool readFile packages requirements no_deps
            exclude_newer).1).stderr) := by
  simp only [uv_pip_compile]
  by_cases h :
      (runTool
        { argv := uv_pip_compile_argv no_deps exclude_newer,
          stdin := requirementsText
            (match requirements with | none => "" | some r => readFile r)
            packages }).returncode = 0
  · simp [h]
  · simp [h]
    constructor
    · intro he
      exact he.symm
    · intro he
      exact he.symm

/-! ## Claim C2 -/

/-- C2: when the Document already holds a manifest cell (index `i` found
by the locator), the written-back Document has the same metadata, the
same number of cells in the same order, every cell other than cell `i`
wholly unchanged, and cell `i` changed only in its source — cell type,
metadata and hidden flag are kept — the new source being the trimmed
output of the external mutation applied to the trimmed original source.
The update happens at the located index itself, which is the embedding
of mutating through a reference to the original cell rather than a
copy. -/
theorem add_notebook_frame (pred : String → Bool) (tool : String → Option String)
    (path : FsPath) (nb : Notebook) (i : Nat) (wr : FsPath × Notebook)
    (hfind : findManifestIdx pred nb.cells = some i)
    (h : add_notebook pred tool path nb = some wr) :
    wr.2.metadata = nb.metadata ∧
    wr.2.cells.length = nb.cells.length ∧
    (∀ j, j ≠ i → wr.2.cells[j]? = nb.cells[j]?) ∧
    ∃ c mutated, nb.cells[i]? = some c ∧ tool (strTrim c.source) = some mutated ∧
      wr.2.cells[i]? = some { c with source := strTrim mutated } := by
  have hloc : locateOrCreate pred nb = (nb, i) := by
    unfold locateOrCreate
    rw [hfind]
  obtain ⟨c, hc, _⟩ := findManifestIdx_some pred nb.cells i hfind
  have hlt : i < nb.cells.length := (List.getElem?_eq_some_iff.1 hc).1
  unfold add_notebook at h
  rw [hloc] at h
  dsimp only at h
  rw [hc] at h
  dsimp only at h
  cases ht : tool (strTrim c.source) with
  | none =>
    rw [ht] at h
    exact absurd h (by simp)
  | some mutated =>
    rw [ht] at h
    dsimp only at h
    cases h.symm
    refine ⟨rfl, List.length_set nb.cells i _, ?_, c, mutated, hc, ht, ?_⟩
    · intro j hj
      exact List.getElem?_set_ne (fun hij => hj hij.symm)
    · exact List.getElem?_set_eq_of_lt _ hlt

/-- Instantiation of `add_notebook_frame` on a two-cell Document whose
first cell carries the inline-metadata marker. -/
theorem add_notebook_frame_witness :
    findManifestIdx includes_inline_metadata
        [code_cell "# /// script" false, code_cell "print(1)" false] = some 0 ∧
    add_notebook includes_inline_metadata (fun _ => some "new source")
        { stem := "nb", suffix := ".ipynb" }
        { cells := [code_cell "# /// script" false, code_cell "print(1)" false],
          metadata := [("kernel", "python3")] } =
      some ({ stem := "nb", suffix := ".ipynb" },
        { cells := [code_cell "new source" false, code_cell "print(1)" false],
          metadata := [("kernel", "python3")] }) ∧
    (({ stem := "nb", suffix := ".ipynb" },
        ({ cells := [code_cell "new source" false, code_cell "print(1)" false],
           metadata := [("kernel", "python3")] } : Notebook)) :
        FsPath × Notebook).2.metadata =
      ({ cells := [code_cell "# /// script" false, code_cell "print(1)" false],
         metadata := [("kernel", "python3")] } : Notebook).metadata :=
  ⟨by decide, by decide,
    (add_notebook_frame includes_inline_metadata (fun _ => some "new source")
      { stem := "nb", suffix := ".ipynb" }
      { cells := [code_cell "# /// script" false, code_cell "print(1)" false],
        metadata := [("kernel", "python3")] } 0
      ({ stem := "nb", suffix := ".ipynb" },
        { cells := [code_cell "new source" false, code_cell "print(1)" false],
          metadata := [("kernel", "python3")] })
      (by decide) (by decide)).1⟩

/-! ## Claim C3 -/

/-- C3: with `pin` set, the packages forwarded to the add-to-script step
are exactly the list the compile step returned and the forwarded
requirements argument is `none`; moreover, with packages `[requests]`
and no requirements file the compile step is fed the standard-input text
consisting of the line `requests` followed by a newline. -/
theorem add_pin_forwards_compiled (runTool : CompileCall → ToolResult)
    (readFile : String → String) (path : FsPath) (packages : List String)
    (requirements : Option String) (extras : Option (List String))
    (tag branch rev : Option String) (editable : Bool) (exclude_newer : Option String)
    (pinned : List String)
    (hok : (uv_pip_compile runTool readFile packages requirements true exclude_newer).2 =
      Except.ok pinned) :
    (∃ o, add runTool readFile path packages requirements extras tag branch rev true editable
          exclude_newer = Except.ok o ∧
        o.dispatch.packages = pinned ∧
        o.dispatch.requirements = none ∧
        o.compileCall =
          some (uv_pip_compile runTool readFile packages requirements true exclude_newer).1) ∧
    (uv_pip_compile runTool readFile ["requests"] none true exclude_newer).1.stdin =
      "requests\n" := by
  constructor
  · have hpair : uv_pip_compile runTool readFile packages requirements true exclude_newer =
        ((uv_pip_compile runTool readFile packages requirements true exclude_newer).1,
          Except.ok pinned) := by
      rw [← hok]
    unfold add
    rw [if_pos rfl, hpair]
    exact ⟨_, rfl, rfl, rfl, rfl⟩
  · exact (by decide : requirementsText "" ["requests"] = "requests\n")

/-- Instantiation of `add_pin_forwards_compiled` at path `nb.ipynb`,
packages `[requests]`, pin set, with a compile subprocess that answers
`requests==2.31.0`. -/
theorem add_pin_forwards_compiled_witness :
    (uv_pip_compile (fun _ => { returncode := 0, stdout := "requests==2.31.0", stderr := "" })
        (fun _ => "") ["requests"] none true none).2 = Except.ok ["requests==2.31.0"] ∧
    (∃ o, add (fun _ => { returncode := 0, stdout := "requests==2.31.0", stderr := "" })
          (fun _ => "") { stem := "nb", suffix := ".ipynb" } ["requests"] none none none none
          none true false none = Except.ok o ∧
        o.dispatch.packages = ["requests==2.31.0"] ∧
        o.dispatch.requirements = none ∧
        o.compileCall =
          some (uv_pip_compile
            (fun _ => { returncode := 0, stdout := "requests==2.31.0", stderr := "" })
            (fun _ => "") ["requests"] none true none).1) ∧
    (uv_pip_compile (fun _ => { returncode := 0, stdout := "requests==2.31.0", stderr := "" })
        (fun _ => "") ["requests"] none true none).1.stdin = "requests\n" :=
  ⟨by decide,
    (add_pin_forwards_compiled
      (fun _ => { returncode := 0, stdout := "requests==2.31.0", stderr := "" }) (fun _ => "")
      { stem := "nb", suffix := ".ipynb" } ["requests"] none none none none none false none
      ["requests==2.31.0"] (by decide)).1,
    (add_pin_forwards_compiled
      (fun _ => { returncode := 0, stdout := "requests==2.31.0", stderr := "" }) (fun _ => "")
      { stem := "nb", suffix := ".ipynb" } ["requests"] none none none none none false none
      ["requests==2.31.0"] (by decide)).2⟩

/-! ## Claim C6 -/

/-- C6: on a zero exit code, the compile step returns exactly those lines
of the subprocess standard output that contain the delimiter, in output
order — the kept lines form a sublist of the output lines, and every
kept line contains the delimiter. -/
theorem uv_pip_compile_filters (runTool : CompileCall → ToolResult)
    (readFile : String → String) (packages : List String) (requirements : Option String)
    (no_deps : Bool) (exclude_newer : Option String) (r : ToolResult)
    (hr : runTool
      (uv_pip_compile runTool readFile packages requirements no_deps exclude_newer).1 = r)
    (h0 : r.returncode = 0) :
    (uv_pip_compile runTool readFile packages requirements no_deps exclude_newer).2 =
      Except.ok ((strLines r.stdout).filter (fun l => strContains l "==")) ∧
    ((strLines r.stdout).filter (fun l => strContains l "==")).Sublist (strLines r.stdout) ∧
    ∀ l ∈ (strLines r.stdout).filter (fun l => strContains l "=="),
      strContains l "==" = true := by
  have key : (uv_pip_compile runTool readFile packages requirements no_deps exclude_newer).2 =
      if r.returncode ≠ 0 then Except.error r.stderr
      else Except.ok ((strLines r.stdout).filter (fun l => strContains l "==")) := by
    rw [← hr]
    rfl
  refine ⟨?_, List.filter_sublist _, ?_⟩
  · rw [key]
    simp [h0]
  · intro l hl
    exact (List.mem_filter.1 hl).2

/-- Instantiation of `uv_pip_compile_filters` on a subprocess whose
output mixes a comment header, a blank line and two pinned lines. -/
theorem uv_pip_compile_filters_witness :
    (uv_pip_compile
        (fun _ => { returncode := 0, stdout := "# header\nfoo==1.2\n\nbar==3.4", stderr := "" })
        (fun _ => "") ["foo"] none true none).2 =
      Except.ok ((strLines "# header\nfoo==1.2\n\nbar==3.4").filter
        (fun l => strContains l "==")) ∧
    ((strLines "# header\nfoo==1.2\n\nbar==3.4").filter (fun l => strContains l "==")).Sublist
      (strLines "# header\nfoo==1.2\n\nbar==3.4") ∧
    ∀ l ∈ (strLines "# header\nfoo==1.2\n\nbar==3.4").filter (fun l => strContains l "=="),
      strContains l "==" = true :=
  uv_pip_compile_filters
    (fun _ => { returncode := 0, stdout := "# header\nfoo==1.2\n\nbar==3.4", stderr := "" })
    (fun _ => "") ["foo"] none true none
    { returncode := 0, stdout := "# header\nfoo==1.2\n\nbar==3.4", stderr := "" } rfl rfl

/-! ## Claim C8 -/

theorem truthyFlag_eq_optArgs (mk : String → List String) (o : Option String)
    (h : (o.all fun s => !s.isEmpty) = true) : truthyFlag mk o = optArgs mk o := by
  cases o with
  | none => rfl
  | some s =>
    have hs : s.isEmpty = false := by
      simpa using h
    simp [truthyFlag, optArgs, hs]

/-- C8: the add-to-script argument vector follows the template
`add [--requirements r] [--extra=e]* [--editable] [--tag=t] [--branch=b]
[--rev=v] [--exclude-newer=d] --script file pkgs...` — each supplied
(non-empty) optional parameter contributes exactly its flag in that
order, each omitted parameter contributes no argument at all, and the
script path and the packages come last. -/
theorem uv_script_args_template (script : String) (packages : List String)
    (requirements : Option String) (extras : Option (List String)) (editable : Bool)
    (branch rev tag exclude_newer : Option String)
    (hreq : (requirements.all fun s => !s.isEmpty) = true)
    (htag : (tag.all fun s => !s.isEmpty) = true)
    (hbranch : (branch.all fun s => !s.isEmpty) = true)
    (hrev : (rev.all fun s => !s.isEmpty) = true)
    (hexcl : (exclude_newer.all fun s => !s.isEmpty) = true) :
    uv_script_args script packages requirements extras editable branch rev tag exclude_newer =
      ["add"]
        ++ optArgs (fun r => ["--requirements", r]) requirements
        ++ (extras.getD []).map (fun extra => "--extra=" ++ extra)
        ++ (if editable then ["--editable"] else [])
        ++ optArgs (fun t => ["--tag=" ++ t]) tag
        ++ optArgs (fun b => ["--branch=" ++ b]) branch
        ++ optArgs (fun r => ["--rev=" ++ r]) rev
        ++ optArgs (fun d => ["--exclude-newer=" ++ d]) exclude_newer
        ++ ["--script", script]
        ++ packages := by
  unfold uv_script_args
  rw [truthyFlag_eq_optArgs _ _ hreq, truthyFlag_eq_optArgs _ _ htag,
    truthyFlag_eq_optArgs _ _ hbranch, truthyFlag_eq_optArgs _ _ hrev,
    truthyFlag_eq_optArgs _ _ hexcl]

/-- Instantiation of `uv_script_args_template` with every optional
parameter supplied. -/
theorem uv_script_args_template_witness :
    uv_script_args "f.py" ["a", "b"] (some "r.txt") (some ["e1", "e2"]) true (some "br")
        (some "rv") (some "tg") (some "2024-01-01") =
      ["add"]
        ++ optArgs (fun r => ["--requirements", r]) (some "r.txt")
        ++ ((some ["e1", "e2"] : Option (List String)).getD []).map
          (fun extra => "--extra=" ++ extra)
        ++ (if true then ["--editable"] else [])
        ++ optArgs (fun t => ["--tag=" ++ t]) (some "tg")
        ++ optArgs (fun b => ["--branch=" ++ b]) (some "br")
        ++ optArgs (fun r => ["--rev=" ++ r]) (some "rv")
        ++ optArgs (fun d => ["--exclude-newer=" ++ d]) (some "2024-01-01")
        ++ ["--script", "f.py"]
        ++ ["a", "b"] :=
  uv_script_args_template "f.py" ["a", "b"] (some "r.txt") (some ["e1", "e2"]) true (some "br")
    (some "rv") (some "tg") (some "2024-01-01") (by decide) (by decide) (by decide) (by decide)
    (by decide)

/-! ## Claim C9 -/

theorem untitled_pos (i : Nat) (h : i ≠ 0) :
    untitled i = "Untitled" ++ toString i ++ ".ipynb" := by
  simp [untitled, h]

theorem findUntitled_eq_some (ex : String → Bool) (i fuel k : Nat)
    (h1 : 1 ≤ i) (hik : i ≤ k) (hk : k < i + fuel)
    (hfree : ex (untitled k) = false)
    (htaken : ∀ j, i ≤ j → j < k → ex (untitled j) = true) :
    findUntitled ex i fuel = some k := by
  induction fuel generalizing i with
  | zero => omega
  | succ fuel ih =>
    simp only [findUntitled]
    have hname : ("Untitled" ++ toString i ++ ".ipynb") = untitled i :=
      (untitled_pos i (by omega)).symm
    by_cases hi : i = k
    · subst hi
      rw [hname, hfree]
      simp
    · have hti : ex (untitled i) = true := htaken i (Nat.le_refl i) (by omega)
      rw [hname, hti]
      simp only [Bool.not_true, Bool.false_eq_true, if_neg, not_false_iff]
      exact ih (i + 1) (by omega) (by omega) (by omega)
        (fun j hj1 hj2 => htaken j (by omega) hj2)

theorem findUntitled_eq_none (ex : String → Bool) (i fuel : Nat) (h1 : 1 ≤ i)
    (htaken : ∀ j, i ≤ j → j < i + fuel → ex (untitled j) = true) :
    findUntitled ex i fuel = none := by
  induction fuel generalizing i with
  | zero => rfl
  | succ fuel ih =>
    simp only [findUntitled]
    have hti : ex (untitled i) = true := htaken i (Nat.le_refl i) (by omega)
    have hname : ("Untitled" ++ toString i ++ ".ipynb") = untitled i :=
      (untitled_pos i (by omega)).symm
    rw [hname, hti]
    simp only [Bool.not_true, Bool.false_eq_true, if_neg, not_false_iff]
    exact ih (i + 1) (by omega) (fun j hj1 hj2 => htaken j (by omega) (by omega))

/-- C9: the name chosen when no path is supplied is the first of the 100
candidates `Untitled.ipynb`, `Untitled1.ipynb`, ..., `Untitled99.ipynb`
that does not exist in the directory, and when all 100 exist the
operation fails with an error and no retry. -/
theorem get_first_untitled_spec (ex : String → Bool) (k : Nat) :
    (k < 100 → ex (untitled k) = false → (∀ j, j < k → ex (untitled j) = true) →
      get_first_non_conflicting_untitled_ipynb ex = Except.ok (untitled k)) ∧
    ((∀ j, j < 100 → ex (untitled j) = true) →
      get_first_non_conflicting_untitled_ipynb ex =
        Except.error "Could not find an available UntitledX.ipynb") := by
  constructor
  · intro hk hfree htaken
    unfold get_first_non_conflicting_untitled_ipynb
    by_cases h0 : k = 0
    · subst h0
      have hf : ex "Untitled.ipynb" = false := hfree
      rw [hf]
      simp [untitled]
    · have h0t : ex "Untitled.ipynb" = true := by
        have := htaken 0 (by omega)
        simpa [untitled] using this
      rw [h0t]
      simp only [Bool.not_true, Bool.false_eq_true, if_neg, not_false_iff]
      rw [findUntitled_eq_some ex 1 99 k (Nat.le_refl 1) (by omega) (by omega) hfree
        (fun j hj1 hj2 => htaken j hj2)]
      rw [untitled_pos k h0]
  · intro htaken
    unfold get_first_non_conflicting_untitled_ipynb
    have h0t : ex "Untitled.ipynb" = true := by
      have := htaken 0 (by omega)
      simpa [untitled] using this
    rw [h0t]
    simp only [Bool.not_true, Bool.false_eq_true, if_neg, not_false_iff]
    rw [findUntitled_eq_none ex 1 99 (Nat.le_refl 1)
      (fun j hj1 hj2 => htaken j (by omega))]

/-- Instantiation of `get_first_untitled_spec`: an empty directory yields
`Untitled.ipynb`, a directory holding only `Untitled.ipynb` yields
`Untitled1.ipynb`, and a directory where every candidate exists yields
the fatal error. -/
theorem get_first_untitled_spec_witness :
    get_first_non_conflicting_untitled_ipynb (fun _ => false) = Except.ok "Untitled.ipynb" ∧
    get_first_non_conflicting_untitled_ipynb (fun n => decide (n = "Untitled.ipynb")) =
      Except.ok "Untitled1.ipynb" ∧
    get_first_non_conflicting_untitled_ipynb (fun _ => true) =
      Except.error "Could not find an available UntitledX.ipynb" :=
  ⟨(get_first_untitled_spec (fun _ => false) 0).1 (by omega) (by decide)
      (fun j hj => absurd hj (by omega)),
    (get_first_untitled_spec (fun n => decide (n = "Untitled.ipynb")) 1).1 (by omega)
      (by decide)
      (fun j hj => by
        have hj0 : j = 0 := by omega
        subst hj0
        decide),
    (get_first_untitled_spec (fun _ => true) 0).2 (fun j hj => rfl)⟩

/-! ## Claim C10 -/

/-- C10: every pin-enabled add call that reaches the dispatch issued one
compile invocation, and the argument vector of that invocation carries the
`--no-deps` flag, so the exact-pin list covers only the packages named
in the combined requirements text. -/
theorem add_pin_no_deps (runTool : CompileCall → ToolResult) (readFile : String → String)
    (path : FsPath) (packages : List String) (requirements : Option String)
    (extras : Option (List String)) (tag branch rev : Option String) (editable : Bool)
    (exclude_newer : Option String) (o : AddOutcome)
    (h : add runTool readFile path packages requirements extras tag branch rev true editable
      exclude_newer = Except.ok o) :
    ∃ c, o.compileCall = some c ∧ "--no-deps" ∈ c.argv := by
  unfold add at h
  rw [if_pos rfl] at h
  have hpair : uv_pip_compile runTool readFile packages requirements true exclude_newer =
      ((uv_pip_compile runTool readFile packages requirements true exclude_newer).1,
        (uv_pip_compile runTool readFile packages requirements true exclude_newer).2) := rfl
  rw [hpair] at h
  cases hres : (uv_pip_compile runTool readFile packages requirements true exclude_newer).2 with
  | error e =>
    rw [hres] at h
    exact absurd h (by simp)
  | ok pinned =>
    rw [hres] at h
    dsimp only at h
    cases h.symm
    refine ⟨(uv_pip_compile runTool readFile packages requirements true exclude_newer).1,
      rfl, ?_⟩
    show "--no-deps" ∈ uv_pip_compile_argv true exclude_newer
    simp [uv_pip_compile_argv]

/-- Instantiation of `add_pin_no_deps` on a pin-enabled call with a
successful compile subprocess. -/
theorem add_pin_no_deps_witness :
    add (fun _ => { returncode := 0, stdout := "requests==2.31.0", stderr := "" }) (fun _ => "")
        { stem := "nb", suffix := ".ipynb" } ["requests"] none none none none none true false
        none =
      Except.ok
        { compileCall := some { argv := ["uv", "pip", "compile", "--no-deps", "-"],
                                stdin := "requests\n" },
          dispatch :=
            { isNotebook := true, packages := ["requests==2.31.0"], requirements := none,
              extras := none, editable := false, branch := none, rev := none, tag := none,
              exclude_newer := none } } ∧
    ∃ c,
      (AddOutcome.mk
        (some { argv := ["uv", "pip", "compile", "--no-deps", "-"], stdin := "requests\n" })
        { isNotebook := true, packages := ["requests==2.31.0"], requirements := none,
          extras := none, editable := false, branch := none, rev := none, tag := none,
          exclude_newer := none }).compileCall = some c ∧ "--no-deps" ∈ c.argv :=
  ⟨by decide,
    add_pin_no_deps (fun _ => { returncode := 0, stdout := "requests==2.31.0", stderr := "" })
      (fun _ => "") { stem := "nb", suffix := ".ipynb" } ["requests"] none none none none none
      false none
      (AddOutcome.mk
        (some { argv := ["uv", "pip", "compile", "--no-deps", "-"], stdin := "requests\n" })
        { isNotebook := true, packages := ["requests==2.31.0"], requirements := none,
          extras := none, editable := false, branch := none, rev := none, tag := none,
          exclude_newer := none }) (by decide)⟩

end Juv
